import Mathlib

/-!
Shallow embedding of the EconSentinel dashboard logic (src/app.py).

The in-scope logic is the risk transform calculate_live_risk, the color
mapping get_color, the map_size scaling, and the load_data loader with the
try/except wrapper at the top level of the script.

Cell values read from the CSV by pandas are modelled by PVal: a numeric
rational or NaN (a missing cell). Python semantics of NaN are kept: any
arithmetic on NaN yields NaN, every comparison with NaN is False, and
min(NaN, c) returns NaN because c < NaN is False.
-/

namespace EconSentinel

/-- A pandas cell value: a numeric value or NaN (a missing cell in the CSV). -/
inductive PVal where
  | num (q : ℚ)
  | nan
  deriving DecidableEq

/-- Python addition of a number to a cell value: NaN propagates. -/
def PVal.add : PVal → ℚ → PVal
  | PVal.num a, b => PVal.num (a + b)
  | PVal.nan, _ => PVal.nan

/-- Python subtraction of a number from a cell value: NaN propagates. -/
def PVal.sub : PVal → ℚ → PVal
  | PVal.num a, b => PVal.num (a - b)
  | PVal.nan, _ => PVal.nan

/-- Python comparison v >= c on a cell value: any comparison with NaN is False. -/
def PVal.ge : PVal → ℚ → Bool
  | PVal.num a, c => decide (c ≤ a)
  | PVal.nan, _ => false

/-- Python min(v, c): the smaller value; min(NaN, c) = NaN since c < NaN is False. -/
def pymin : PVal → ℚ → PVal
  | PVal.num a, c => PVal.num (min a c)
  | PVal.nan, _ => PVal.nan

/-- A dataframe row: an association list from column name to cell value. -/
abbrev Row := List (String × PVal)

/-- Body of calculate_live_risk (src/app.py lines 63 to 80) on a numeric base
value, before the final clamp: the sequence of threshold adjustments applied
to base, mirroring the sequential reassignments of the source. -/
def liveRiskRaw (fuel_shock tax_hike : ℤ) (subsidy : Bool) (base : ℚ) : ℚ :=
  let base := if 5 < fuel_shock then base + 10 else base
  let base := if 20 < fuel_shock then base + 25 else base
  let base := if 2 < tax_hike then base + (tax_hike : ℚ) * 2 else base
  let base := if subsidy then base - 20 else base
  base

/-- calculate_live_risk (src/app.py lines 63 to 82) on a numeric base value:
the threshold adjustments followed by min(base, 100). -/
def calculate_live_risk (fuel_shock tax_hike : ℤ) (subsidy : Bool) (base : ℚ) : ℚ :=
  min (liveRiskRaw fuel_shock tax_hike subsidy base) 100

/-- calculate_live_risk applied to a dataframe row, as df.apply does on line 85:
the lookup row[Base_Risk] raises an uncaught KeyError when the column is absent;
a NaN cell propagates through the arithmetic and through the final min. -/
def calculate_live_risk_row (fuel_shock tax_hike : ℤ) (subsidy : Bool) (row : Row) :
    Except String PVal :=
  match row.lookup "Base_Risk" with
  | none => Except.error "KeyError"
  | some base =>
    let base := if 5 < fuel_shock then base.add 10 else base
    let base := if 20 < fuel_shock then base.add 25 else base
    let base := if 2 < tax_hike then base.add ((tax_hike : ℚ) * 2) else base
    let base := if subsidy then base.sub 20 else base
    Except.ok (pymin base 100)

/-- get_color (src/app.py lines 88 to 91): red at risk >= 75, orange at
risk >= 50, green otherwise. On NaN both comparisons are False, giving green. -/
def get_color (risk : PVal) : String :=
  if risk.ge 75 then "#FF0000"
  else if risk.ge 50 then "#FFA500"
  else "#00FF00"

/-- map_size (src/app.py line 96): Population divided by the display divisor 30000. -/
def map_size (population : ℚ) : ℚ := population / 30000

/-- The state of the data.csv file as pd.read_csv sees it. -/
inductive LoadInput where
  | missingFile
  | unparseable
  | parsed (rows : List Row)

/-- load_data (src/app.py lines 14 to 17): pd.read_csv raises on a missing or
unparseable file; it performs no check of the columns of a parsed file. -/
def load_data : LoadInput → Except String (List Row)
  | LoadInput.missingFile => Except.error "FileNotFoundError"
  | LoadInput.unparseable => Except.error "ParserError"
  | LoadInput.parsed rows => Except.ok rows

/-- df.apply(calculate_live_risk, axis=1) (src/app.py line 85): row by row
application in which the first uncaught exception aborts the computation. -/
def applyRows (fuel_shock tax_hike : ℤ) (subsidy : Bool) : List Row → Except String (List PVal)
  | [] => Except.ok []
  | r :: rest =>
    match calculate_live_risk_row fuel_shock tax_hike subsidy r with
    | Except.error e => Except.error e
    | Except.ok v =>
      match applyRows fuel_shock tax_hike subsidy rest with
      | Except.error e => Except.error e
      | Except.ok vs => Except.ok (v :: vs)

/-- Outcome of the top-level script in src/app.py. -/
inductive AppOutcome where
  | dataUnavailable
  | crashed (msg : String)
  | rendered (risks : List PVal)
  deriving DecidableEq

/-- Top level of src/app.py lines 19 to 85: the try block around load_data turns
any load failure into the fatal database-error stop (st.error then st.stop);
df.apply runs outside the try block, so a row failure there is an uncaught crash,
not the data-unavailable condition. -/
def runApp (input : LoadInput) (fuel_shock tax_hike : ℤ) (subsidy : Bool) : AppOutcome :=
  match load_data input with
  | Except.error _ => AppOutcome.dataUnavailable
  | Except.ok df =>
    match applyRows fuel_shock tax_hike subsidy df with
    | Except.error e => AppOutcome.crashed e
    | Except.ok risks => AppOutcome.rendered risks

/-! Helper lemmas. -/

/-- Closed form of the raw risk adjustment as a sum of independent bonuses. -/
theorem liveRiskRaw_eq (fs th : ℤ) (s : Bool) (b : ℚ) :
    liveRiskRaw fs th s b =
      b + (if 5 < fs then (10 : ℚ) else 0) + (if 20 < fs then (25 : ℚ) else 0)
        + (if 2 < th then (th : ℚ) * 2 else 0) - (if s then (20 : ℚ) else 0) := by
  unfold liveRiskRaw
  split_ifs <;> ring

/-- A constant bonus gated by a strict integer threshold is monotone in the input. -/
theorem if_bonus_mono (c : ℤ) (a : ℚ) (ha : 0 ≤ a) (x y : ℤ) (hxy : x ≤ y) :
    (if c < x then a else 0) ≤ (if c < y then a else 0) := by
  split_ifs with h1 h2
  · exact le_refl a
  · exact absurd (lt_of_lt_of_le h1 hxy) h2
  · exact ha
  · exact le_refl 0

/-- The tax bonus, gated at 2 and proportional to the rate, is monotone. -/
theorem tax_bonus_mono (x y : ℤ) (hxy : x ≤ y) :
    (if 2 < x then (x : ℚ) * 2 else 0) ≤ (if 2 < y then (y : ℚ) * 2 else 0) := by
  split_ifs with h1 h2 h3
  · have hq : (x : ℚ) ≤ (y : ℚ) := by exact_mod_cast hxy
    linarith
  · exact absurd (lt_of_lt_of_le h1 hxy) h2
  · have hy : (0 : ℤ) < y := lt_trans (by norm_num) h3
    have hq : (0 : ℚ) < (y : ℚ) := by exact_mod_cast hy
    linarith
  · exact le_refl 0

/-! Theorems for the claims. -/

/-- C1: for every base value and every combination of the simulation parameters,
Live_Risk is at most 100; and no lower bound is enforced: a base of 10 with the
subsidy active yields Live_Risk of -10, which is negative. -/
theorem liveRisk_le_100_no_floor :
    (∀ (base : ℚ) (fuel_shock tax_hike : ℤ) (subsidy : Bool),
        calculate_live_risk fuel_shock tax_hike subsidy base ≤ 100) ∧
      calculate_live_risk 0 0 true 10 < 0 := by
  constructor
  · intro base fs th s
    exact min_le_right _ _
  · have h : liveRiskRaw 0 0 true 10 = -10 := by
      rw [liveRiskRaw_eq]
      norm_num
    unfold calculate_live_risk
    rw [h]
    norm_num [min_def]

/-- C2: with the parameters at their defaults (0, 0, false) the risk transform
is the identity on every base in [0, 100]. -/
theorem liveRisk_default_identity (base : ℚ) (_h0 : 0 ≤ base) (h100 : base ≤ 100) :
    calculate_live_risk 0 0 false base = base := by
  unfold calculate_live_risk liveRiskRaw
  norm_num
  exact h100

/-- Witness for C2 at base 42. -/
theorem liveRisk_default_identity_witness :
    calculate_live_risk 0 0 false 42 = 42 :=
  liveRisk_default_identity 42 (by norm_num) (by norm_num)

/-- C3: the fuel-shock thresholds are strict and the two tiers cumulative, with
the other parameters at 0 and false and before the clamp: a shock at most 5 adds
nothing, a shock strictly above 5 and at most 20 adds exactly 10, and a shock
strictly above 20 adds 10 + 25 = 35. -/
theorem fuel_shock_tiers (base : ℚ) (fuel_shock : ℤ) :
    (fuel_shock ≤ 5 → liveRiskRaw fuel_shock 0 false base = base) ∧
    (5 < fuel_shock → fuel_shock ≤ 20 → liveRiskRaw fuel_shock 0 false base = base + 10) ∧
    (20 < fuel_shock → liveRiskRaw fuel_shock 0 false base = base + 10 + 25) := by
  refine ⟨?_, ?_, ?_⟩
  · intro h
    rw [liveRiskRaw_eq]
    have h1 : ¬ 5 < fuel_shock := by omega
    have h2 : ¬ 20 < fuel_shock := by omega
    simp [h1, h2]
  · intro h h20
    rw [liveRiskRaw_eq]
    have h2 : ¬ 20 < fuel_shock := by omega
    simp [h, h2]
  · intro h
    rw [liveRiskRaw_eq]
    have h1 : 5 < fuel_shock := by omega
    simp [h, h1]

/-- Witness for C3 at the boundary 5 (no bonus), at 6 (first tier) and 21 (both). -/
theorem fuel_shock_tiers_witness :
    liveRiskRaw 5 0 false 40 = 40 ∧ liveRiskRaw 6 0 false 40 = 50 ∧
      liveRiskRaw 21 0 false 40 = 75 := by
  refine ⟨(fuel_shock_tiers 40 5).1 (by norm_num), ?_, ?_⟩
  · rw [(fuel_shock_tiers 40 6).2.1 (by norm_num) (by norm_num)]
    norm_num
  · rw [(fuel_shock_tiers 40 21).2.2 (by norm_num)]
    norm_num

/-- C4: the color mapping is a function of the risk value alone, with the bucket
boundaries inclusive on the lower edge: risk at least 75 is red (critical), risk
in [50, 75) is orange (warning), risk below 50 is green (stable); in particular
the boundary values 75 and 50 map to red and orange respectively. -/
theorem get_color_buckets (risk : ℚ) :
    (75 ≤ risk → get_color (PVal.num risk) = "#FF0000") ∧
    (50 ≤ risk → risk < 75 → get_color (PVal.num risk) = "#FFA500") ∧
    (risk < 50 → get_color (PVal.num risk) = "#00FF00") ∧
    get_color (PVal.num 75) = "#FF0000" ∧
    get_color (PVal.num 50) = "#FFA500" := by
  refine ⟨?_, ?_, ?_, ?_, ?_⟩
  · intro h
    simp [get_color, PVal.ge, h]
  · intro h50 h75
    have h : ¬ (75 : ℚ) ≤ risk := not_le.mpr h75
    simp [get_color, PVal.ge, h, h50]
  · intro h50
    have h : ¬ (75 : ℚ) ≤ risk := by linarith
    have h2 : ¬ (50 : ℚ) ≤ risk := not_le.mpr h50
    simp [get_color, PVal.ge, h, h2]
  · simp [get_color, PVal.ge]
  · norm_num [get_color, PVal.ge]
  
/-- Witness for C4 at risks 80, 60 and 10. -/
theorem get_color_buckets_witness :
    get_color (PVal.num 80) = "#FF0000" ∧ get_color (PVal.num 60) = "#FFA500" ∧
      get_color (PVal.num 10) = "#00FF00" :=
  ⟨(get_color_buckets 80).1 (by norm_num),
   (get_color_buckets 60).2.1 (by norm_num) (by norm_num),
   (get_color_buckets 10).2.2.1 (by norm_num)⟩

/-- C5 counterexample: at base 60 with fuel shock 12 the code adds only the first
tier bonus of 10, giving Live_Risk 70 and the orange warning color, so the claimed
value 75 and the red critical color are both wrong. -/
theorem example_60_12_not_75_critical :
    calculate_live_risk 12 0 false 60 ≠ 75 ∧
    get_color (PVal.num (calculate_live_risk 12 0 false 60)) ≠ "#FF0000" := by
  have h : calculate_live_risk 12 0 false 60 = 70 := by
    unfold calculate_live_risk
    rw [liveRiskRaw_eq]
    norm_num [min_def]
  have hc : get_color (PVal.num 70) = "#FFA500" := by
    norm_num [get_color, PVal.ge]
  rw [h, hc]
  refine ⟨by norm_num, ?_⟩
  decide

/-- C5 amended: at base 60, fuel shock 12, tax hike 0 and no subsidy, the code
with its constants (threshold 5, bonus 10) yields Live_Risk 70, which the color
mapping classifies as the orange warning bucket. -/
theorem example_60_12_gives_70_warning :
    calculate_live_risk 12 0 false 60 = 70 ∧ get_color (PVal.num 70) = "#FFA500" := by
  constructor
  · unfold calculate_live_risk
    rw [liveRiskRaw_eq]
    norm_num [min_def]
  · norm_num [get_color, PVal.ge]

/-- C6 counterexample: a table that parses but lacks the Base_Risk column is not
reported as the data-unavailable condition; load_data returns it and the risk
transform is invoked on it and crashes with an uncaught key error. -/
theorem missing_column_not_data_unavailable :
    runApp (LoadInput.parsed [[("lat", PVal.num 0)]]) 0 0 false =
        AppOutcome.crashed "KeyError" ∧
      runApp (LoadInput.parsed [[("lat", PVal.num 0)]]) 0 0 false ≠
        AppOutcome.dataUnavailable := by
  constructor
  · rfl
  · decide

/-- C6 amended: a missing or unparseable file halts with the fatal data-unavailable
condition and no row is processed; a parsed table whose first row lacks the
required Base_Risk column passes the loader, and the per-row risk transform is
attempted and crashes with an uncaught key error instead of the data-unavailable
condition. -/
theorem load_failure_behaviour (fs th : ℤ) (s : Bool) (r : Row) (rest : List Row)
    (h : r.lookup "Base_Risk" = none) :
    runApp LoadInput.missingFile fs th s = AppOutcome.dataUnavailable ∧
    runApp LoadInput.unparseable fs th s = AppOutcome.dataUnavailable ∧
    runApp (LoadInput.parsed (r :: rest)) fs th s = AppOutcome.crashed "KeyError" := by
  refine ⟨rfl, rfl, ?_⟩
  simp [runApp, load_data, applyRows, calculate_live_risk_row, h]

/-- Witness for C6 amended on a one-row table holding only a lon column. -/
theorem load_failure_behaviour_witness :
    runApp LoadInput.missingFile 0 0 false = AppOutcome.dataUnavailable ∧
    runApp LoadInput.unparseable 0 0 false = AppOutcome.dataUnavailable ∧
    runApp (LoadInput.parsed [[("lon", PVal.num 1)]]) 0 0 false =
      AppOutcome.crashed "KeyError" :=
  load_failure_behaviour 0 0 false [("lon", PVal.num 1)] [] (by decide)

/-- C7 counterexample: a row whose Base_Risk cell is missing (NaN) is computed
without any missing-field failure: the transform silently returns Live_Risk NaN
for it, and the color mapping then classifies the row as stable green. -/
theorem nan_base_silently_computed :
    calculate_live_risk_row 0 0 false [("Base_Risk", PVal.nan)] =
        Except.ok PVal.nan ∧
      get_color PVal.nan = "#00FF00" := by
  constructor
  · rfl
  · rfl

/-- C7 amended: a row whose Base_Risk cell is missing (NaN) is silently computed
for any parameter values: every adjustment and the final min propagate NaN, the
transform returns Live_Risk NaN with no missing-field condition, and the color
mapping classifies the row as stable green. -/
theorem nan_base_propagates (fs th : ℤ) (s : Bool) (r : Row)
    (h : r.lookup "Base_Risk" = some PVal.nan) :
    calculate_live_risk_row fs th s r = Except.ok PVal.nan ∧
    get_color PVal.nan = "#00FF00" := by
  constructor
  · simp only [calculate_live_risk_row, h]
    split_ifs <;> rfl
  · rfl

/-- Witness for C7 amended at parameters 7, 3, true. -/
theorem nan_base_propagates_witness :
    calculate_live_risk_row 7 3 true [("Base_Risk", PVal.nan)] = Except.ok PVal.nan ∧
      get_color PVal.nan = "#00FF00" :=
  nan_base_propagates 7 3 true [("Base_Risk", PVal.nan)] (by decide)

/-- C8: map_size equals Population divided by the fixed divisor 30000, it is
strictly proportional to Population, map_size of 0 is 0, and the Population cell
of a row has no effect on the Live_Risk or on the color computed for that row. -/
theorem map_size_spec :
    (∀ p : ℚ, map_size p = p / 30000) ∧
    (∀ c p : ℚ, map_size (c * p) = c * map_size p) ∧
    map_size 0 = 0 ∧
    (∀ (fs th : ℤ) (s : Bool) (r : Row) (p1 p2 : PVal),
      calculate_live_risk_row fs th s (("Population", p1) :: r) =
          calculate_live_risk_row fs th s (("Population", p2) :: r) ∧
        Except.map get_color (calculate_live_risk_row fs th s (("Population", p1) :: r)) =
          Except.map get_color (calculate_live_risk_row fs th s (("Population", p2) :: r))) := by
  refine ⟨fun p => rfl, ?_, ?_, ?_⟩
  · intro c p
    unfold map_size
    ring
  · unfold map_size
    norm_num
  · intro fs th s r p1 p2
    have hr : calculate_live_risk_row fs th s (("Population", p1) :: r) =
        calculate_live_risk_row fs th s (("Population", p2) :: r) := rfl
    exact ⟨hr, by rw [hr]⟩

/-- C9: noninterference of the non-risk columns: two rows that agree on the
Base_Risk cell receive the same Live_Risk and the same color under any fixed
simulation parameters, whatever their other columns hold. -/
theorem risk_noninterference (fs th : ℤ) (s : Bool) (r1 r2 : Row)
    (h : r1.lookup "Base_Risk" = r2.lookup "Base_Risk") :
    calculate_live_risk_row fs th s r1 = calculate_live_risk_row fs th s r2 ∧
    Except.map get_color (calculate_live_risk_row fs th s r1) =
      Except.map get_color (calculate_live_risk_row fs th s r2) := by
  have hr : calculate_live_risk_row fs th s r1 = calculate_live_risk_row fs th s r2 := by
    unfold calculate_live_risk_row
    rw [h]
  exact ⟨hr, by rw [hr]⟩

/-- Witness for C9 on two rows sharing base risk 30 and differing elsewhere. -/
theorem risk_noninterference_witness :
    calculate_live_risk_row 0 0 false
        [("Base_Risk", PVal.num 30), ("lat", PVal.num 1), ("Population", PVal.num 5)] =
      calculate_live_risk_row 0 0 false [("lon", PVal.num 9), ("Base_Risk", PVal.num 30)] ∧
    Except.map get_color (calculate_live_risk_row 0 0 false
        [("Base_Risk", PVal.num 30), ("lat", PVal.num 1), ("Population", PVal.num 5)]) =
      Except.map get_color (calculate_live_risk_row 0 0 false
        [("lon", PVal.num 9), ("Base_Risk", PVal.num 30)]) :=
  risk_noninterference 0 0 false
    [("Base_Risk", PVal.num 30), ("lat", PVal.num 1), ("Population", PVal.num 5)]
    [("lon", PVal.num 9), ("Base_Risk", PVal.num 30)] (by decide)

/-- C10: for a fixed base the risk transform is monotone non-decreasing in the
fuel shock over [-10, 50] and in the tax hike over [0, 10], and enabling the
subsidy never increases Live_Risk. -/
theorem liveRisk_monotone (base : ℚ) :
    (∀ (fs1 fs2 th : ℤ) (s : Bool), -10 ≤ fs1 → fs1 ≤ fs2 → fs2 ≤ 50 →
      calculate_live_risk fs1 th s base ≤ calculate_live_risk fs2 th s base) ∧
    (∀ (fs th1 th2 : ℤ) (s : Bool), 0 ≤ th1 → th1 ≤ th2 → th2 ≤ 10 →
      calculate_live_risk fs th1 s base ≤ calculate_live_risk fs th2 s base) ∧
    (∀ (fs th : ℤ),
      calculate_live_risk fs th true base ≤ calculate_live_risk fs th false base) := by
  refine ⟨?_, ?_, ?_⟩
  · intro fs1 fs2 th s hlo hle hhi
    apply min_le_min _ (le_refl (100 : ℚ))
    rw [liveRiskRaw_eq, liveRiskRaw_eq]
    have h1 := if_bonus_mono 5 (10 : ℚ) (by norm_num) fs1 fs2 hle
    have h2 := if_bonus_mono 20 (25 : ℚ) (by norm_num) fs1 fs2 hle
    linarith
  · intro fs th1 th2 s hlo hle hhi
    apply min_le_min _ (le_refl (100 : ℚ))
    rw [liveRiskRaw_eq, liveRiskRaw_eq]
    have h3 := tax_bonus_mono th1 th2 hle
    linarith
  · intro fs th
    apply min_le_min _ (le_refl (100 : ℚ))
    rw [liveRiskRaw_eq, liveRiskRaw_eq]
    simp

/-- Witness for C10 at base 40 with parameter pairs (0, 6), (0, 3) and the subsidy. -/
theorem liveRisk_monotone_witness :
    calculate_live_risk 0 0 false 40 ≤ calculate_live_risk 6 0 false 40 ∧
    calculate_live_risk 0 0 false 40 ≤ calculate_live_risk 0 3 false 40 ∧
    calculate_live_risk 0 0 true 40 ≤ calculate_live_risk 0 0 false 40 :=
  ⟨(liveRisk_monotone 40).1 0 6 0 false (by norm_num) (by norm_num) (by norm_num),
   (liveRisk_monotone 40).2.1 0 0 3 false (by norm_num) (by norm_num) (by norm_num),
   (liveRisk_monotone 40).2.2 0 0⟩

end EconSentinel
